import Mathlib

/-!
A shallow embedding of the notification / activity-audit domain logic of the
team-tracker backend (Express + Mongoose), together with theorems settling the
specification claims about it.

Conventions of the embedding:
* Mongo `ObjectId`s are modelled as `Nat`; `toString` equality on ids is `Nat`
  equality.
* `Date` values are modelled as `Int` (milliseconds since epoch).
* A Mongo collection is modelled as a `List` of documents; `save` appends.
* Persistence failure is modelled by a `dbOk : Bool` oracle passed to any
  function that writes to the store: `dbOk = false` makes every save throw,
  which the embedded `try/catch` blocks turn into a `null` (`none`) result.
* Mongoose save-time schema validation (the `enum` constraints) is part of the
  embedded save: an invalid document makes the save fail.
-/

namespace TeamTracker

/-- An embedded comment sub-document (`CommentSchema` in `models/Task.js`). -/
structure Comment where
  author : Nat
  text : String
  timestamp : Int
  deriving DecidableEq

/-- A task document (`TaskSchema` in `models/Task.js`).  `assignee_id` and
`createdBy` are required by the schema, `project_id` and `completedAt` are
optional. -/
structure Task where
  title : String
  description : String
  assignee_id : Nat
  project_id : Option Nat
  status : String
  priority : String
  dueDate : Int
  createdBy : Nat
  completedAt : Option Int
  comments : List Comment
  deriving DecidableEq

/-- The `status` enum of `TaskSchema`. -/
def statusEnum : List String := ["todo", "in-progress", "completed"]

/-- The `priority` enum of `TaskSchema`. -/
def priorityEnum : List String := ["low", "medium", "high"]

/-- A notification document (`NotificationSchema` in `models/Notification.js`).
`id` stands for the Mongo `_id`. -/
structure Notification where
  id : Nat
  recipient : Nat
  sender : Nat
  type : String
  title : String
  message : String
  relatedTask : Option Nat
  relatedProject : Option Nat
  isRead : Bool
  readAt : Option Int
  deriving DecidableEq

/-- The `type` enum of `NotificationSchema`. -/
def notificationTypeEnum : List String :=
  ["task_assigned", "task_updated", "task_completed", "task_reassigned",
   "comment_added", "project_assigned"]

/-- Save-time schema validation for a notification: the `type` path has an
`enum` validator (all other required paths are always populated by the code
embedded here). -/
def Notification.valid (n : Notification) : Bool :=
  notificationTypeEnum.contains n.type

/-- `notification.save()`: fails when the database is down (`dbOk = false`) or
when schema validation rejects the document; otherwise appends it to the
collection. -/
def saveNotification (dbOk : Bool) (store : List Notification) (n : Notification) :
    Option (List Notification) :=
  if dbOk && n.valid then some (store ++ [n]) else none

/-- `NotificationSchema.methods.markAsRead`: sets `isRead` and `readAt`
only when the notification is still unread. -/
def Notification.markAsRead (n : Notification) (now : Int) : Notification :=
  if !n.isRead then { n with isRead := true, readAt := some now } else n

/-- The query predicate of `NotificationSchema.statics.markMultipleAsRead`:
`{ recipient, isRead: false }`, narrowed to `_id ∈ notificationIds` when a
non-empty id list is supplied. -/
def markMultipleQuery (recipientId : Nat) (notificationIds : List Nat)
    (n : Notification) : Bool :=
  n.recipient == recipientId && n.isRead == false &&
    (notificationIds.isEmpty || notificationIds.contains n.id)

/-- `NotificationSchema.statics.markMultipleAsRead`: `updateMany` setting
`isRead = true` and `readAt = now` on every document matching the query;
returns the updated store and the modified count. -/
def markMultipleAsRead (store : List Notification) (recipientId : Nat)
    (notificationIds : List Nat) (now : Int) : List Notification × Nat :=
  (store.map (fun n => if markMultipleQuery recipientId notificationIds n
      then { n with isRead := true, readAt := some now } else n),
   (store.filter (markMultipleQuery recipientId notificationIds)).length)

/-- The per-type `title`/`message` template of `createTaskNotification`
(`utils/notifications.js`), with the `default` fallback. -/
def taskNotificationContent (type taskTitle : String) : String × String :=
  if type == "task_assigned" then
    ("New Task Assigned", "You have been assigned a new task: \"" ++ taskTitle ++ "\"")
  else if type == "task_updated" then
    ("Task Updated", "Task \"" ++ taskTitle ++ "\" has been updated")
  else if type == "task_completed" then
    ("Task Completed", "Task \"" ++ taskTitle ++ "\" has been marked as completed")
  else if type == "task_reassigned" then
    ("Task Reassigned", "You have been assigned to task: \"" ++ taskTitle ++ "\"")
  else
    ("Task Notification", "Task \"" ++ taskTitle ++ "\" has been updated")

/-- The `notificationData` object built by `createTaskNotification`.  `fid` is
the fresh `_id` Mongo would generate for the new document; `taskId` is
`task._id`. -/
def taskNotificationData (fid recipientId senderId : Nat) (task : Task)
    (taskId : Nat) (type : String) : Notification :=
  let c := taskNotificationContent type task.title
  { id := fid, recipient := recipientId, sender := senderId, type := type,
    title := c.1, message := c.2, relatedTask := some taskId,
    relatedProject := task.project_id, isRead := false, readAt := none }

/-- `createTaskNotification` (`utils/notifications.js`): suppresses
self-notification, builds the templated document, saves it, and converts any
save failure into `none` (the `catch` branch returning `null`). -/
def createTaskNotification (dbOk : Bool) (store : List Notification) (fid : Nat)
    (recipientId senderId : Nat) (task : Task) (taskId : Nat) (type : String) :
    List Notification × Option Notification :=
  if recipientId == senderId then (store, none)
  else
    let n := taskNotificationData fid recipientId senderId task taskId type
    match saveNotification dbOk store n with
    | some store2 => (store2, some n)
    | none => (store, none)

/-- Comment-text truncation in `createCommentNotification`: first 50
characters plus an ellipsis when longer. -/
def truncateComment (text : String) : String :=
  if text.length > 50 then (text.take 50) ++ "..." else text

/-- The `notificationData` object built by `createCommentNotification`. -/
def commentNotificationData (fid recipientId senderId : Nat) (task : Task)
    (taskId : Nat) (commentText : String) : Notification :=
  { id := fid, recipient := recipientId, sender := senderId,
    type := "comment_added", title := "New Comment on Task",
    message := "New comment on \"" ++ task.title ++ "\": \"" ++
      truncateComment commentText ++ "\"",
    relatedTask := some taskId, relatedProject := task.project_id,
    isRead := false, readAt := none }

/-- `createCommentNotification` (`utils/notifications.js`). -/
def createCommentNotification (dbOk : Bool) (store : List Notification) (fid : Nat)
    (recipientId senderId : Nat) (task : Task) (taskId : Nat) (commentText : String) :
    List Notification × Option Notification :=
  if recipientId == senderId then (store, none)
  else
    let n := commentNotificationData fid recipientId senderId task taskId commentText
    match saveNotification dbOk store n with
    | some store2 => (store2, some n)
    | none => (store, none)

/-- The `toString()` image of a user reference at the notification call
sites: the 24-hex string of a raw `ObjectId`, or the inspect output
(`{ _id: ..., name: ... }`) of a user document that was `populate`d.  The two
shapes never compare equal as strings; an inspect string is determined by the
user's fields and hence by their id. -/
inductive RecipientKey where
  | objectIdHex (id : Nat)
  | inspectString (id : Nat)
  deriving DecidableEq

/-- The Mongoose ObjectId cast applied at save to a string recipient: a hex
string casts to its id, a document-inspect string throws a `CastError`. -/
def RecipientKey.castToObjectId : RecipientKey → Option Nat
  | .objectIdHex id => some id
  | .inspectString _ => none

/-- `createTaskNotification` as called with a `populate`d user document as
the recipient (the `task_updated` branch of the PUT handler): the recipient's
`toString()` is its inspect output, which never equals the sender's hex, so
the self-check never fires; at save Mongoose casts the document itself to its
`_id`, so the record is created even when that id equals the sender. -/
def createTaskNotificationFromDoc (dbOk : Bool) (store : List Notification)
    (fid : Nat) (recipientDocId senderId : Nat) (task : Task) (taskId : Nat)
    (type : String) : List Notification × Option Notification :=
  if RecipientKey.inspectString recipientDocId ==
      RecipientKey.objectIdHex senderId then (store, none)
  else
    let n := taskNotificationData fid recipientDocId senderId task taskId type
    match saveNotification dbOk store n with
    | some store2 => (store2, some n)
    | none => (store, none)

/-- An activity-log document (`ActivityLogSchema` in `models/ActivityLog.js`).
`createdAt` is the `timestamps: true` creation time stamped at save. -/
structure ActivityLog where
  userId : Nat
  action : String
  description : String
  entityType : Option String
  entityId : Option Nat
  entityName : Option String
  relatedEntityType : Option String
  relatedEntityId : Option Nat
  relatedEntityName : Option String
  ipAddress : Option String
  userAgent : Option String
  createdAt : Int
  deriving DecidableEq

/-- The `action` enum of `ActivityLogSchema`. -/
def actionEnum : List String :=
  ["user_login", "user_logout", "user_register",
   "project_created", "project_updated", "project_deleted",
   "task_created", "task_updated", "task_assigned", "task_reassigned",
   "task_status_changed", "task_completed", "task_deleted",
   "task_commented", "comment_updated", "comment_deleted",
   "team_member_added", "team_member_updated", "team_member_removed"]

/-- The `entityType` / `relatedEntityType` enum of `ActivityLogSchema`. -/
def entityTypeEnum : List String := ["user", "project", "task", "comment", "team_member"]

/-- Save-time schema validation for an activity-log entry: the `action` path
and the optional `entityType` / `relatedEntityType` paths carry `enum`
validators. -/
def ActivityLog.valid (e : ActivityLog) : Bool :=
  actionEnum.contains e.action &&
    (match e.entityType with
     | some t => entityTypeEnum.contains t
     | none => true) &&
    (match e.relatedEntityType with
     | some t => entityTypeEnum.contains t
     | none => true)

/-- `ActivityLogSchema.statics.logActivity`: saves the entry, catching any
failure and returning `null` so that audit writes never disrupt main
operations. -/
def logActivity (dbOk : Bool) (store : List ActivityLog) (data : ActivityLog) :
    List ActivityLog × Option ActivityLog :=
  if dbOk && data.valid then (store ++ [data], some data) else (store, none)

/-- Milliseconds per day, used to model `cutoffDate.setDate(getDate() - days)`. -/
def msPerDay : Int := 86400000

/-- `DELETE /api/activity-logs/cleanup`: removes via `deleteMany` every entry
with `createdAt` strictly before `now - daysToKeep` days and reports the
deleted count. -/
def cleanupActivityLogs (store : List ActivityLog) (daysToKeep : Nat) (now : Int) :
    List ActivityLog × Nat :=
  let cutoff := now - (daysToKeep : Int) * msPerDay
  (store.filter (fun e => !(decide (e.createdAt < cutoff))),
   (store.filter (fun e => decide (e.createdAt < cutoff))).length)

/-- The `TaskSchema.pre("save")` hook: when the `status` path was modified,
stamp `completedAt` on entry into `completed` and clear it on any
non-completed status. -/
def taskPreSaveHook (t : Task) (statusModified : Bool) (now : Int) : Task :=
  if statusModified then
    if t.status == "completed" && t.completedAt.isNone then
      { t with completedAt := some now }
    else if t.status != "completed" then
      { t with completedAt := none }
    else t
  else t

/-- The body fields of `PUT /api/tasks/:id` that the handler inspects or that
`findByIdAndUpdate` applies; each `none` means the field is absent from the
request body. -/
structure TaskUpdates where
  title : Option String
  description : Option String
  assignee_id : Option Nat
  project_id : Option Nat
  status : Option String
  priority : Option String
  dueDate : Option Int
  deriving DecidableEq

/-- `runValidators: true` on `findByIdAndUpdate`: an update supplying a value
outside a schema enum is rejected. -/
def TaskUpdates.validForSchema (u : TaskUpdates) : Bool :=
  (match u.status with
   | some s => statusEnum.contains s
   | none => true) &&
  (match u.priority with
   | some p => priorityEnum.contains p
   | none => true)

/-- The `isReassignment` check of the PUT handler: an `assignee_id` is in the
body and differs from the existing assignee. -/
def TaskUpdates.isReassignment (u : TaskUpdates) (existing : Task) : Bool :=
  match u.assignee_id with
  | some a => a != existing.assignee_id
  | none => false

/-- The `updates.completedAt` assignment made by the PUT handler before
`findByIdAndUpdate`: `some v` means the handler put `completedAt = v` into the
update object, `none` means it left the field untouched.  Note that an absent
`updates.status` satisfies `updates.status !== "completed"` in the source, so
the second branch fires and clears `completedAt`. -/
def TaskUpdates.completedAtUpdate (u : TaskUpdates) (existing : Task) (now : Int) :
    Option (Option Int) :=
  if u.status == some "completed" && existing.status != "completed" then
    some (some now)
  else if u.status != some "completed" then
    some none
  else none

/-- The document produced by `findByIdAndUpdate(taskId, updates)` in the PUT
handler: body fields overwrite, absent fields persist, and `completedAt`
follows `TaskUpdates.completedAtUpdate`.  (`findByIdAndUpdate` bypasses the
`pre("save")` hook.) -/
def applyUpdates (existing : Task) (u : TaskUpdates) (now : Int) : Task :=
  { existing with
    title := u.title.getD existing.title,
    description := u.description.getD existing.description,
    assignee_id := u.assignee_id.getD existing.assignee_id,
    project_id := (match u.project_id with
      | some p => some p
      | none => existing.project_id),
    status := u.status.getD existing.status,
    priority := u.priority.getD existing.priority,
    dueDate := u.dueDate.getD existing.dueDate,
    completedAt := (match u.completedAtUpdate existing now with
      | some v => v
      | none => existing.completedAt) }

/-- `PUT /api/tasks/:id`: validates the update, applies it, then runs the
notification branch chain (reassignment first, then completion, then generic
update).  Returns `none` when validation rejects the body, otherwise the
updated task and the notification store.  The generic-update branch reads
`assignee_id` off the `populate`d `updatedTask`, so its `toString()` is an
inspect string: the not-the-actor guard always holds and the self-check
inside the helper never fires (see `createTaskNotificationFromDoc`). -/
def putTask (dbOk : Bool) (store : List Notification) (fid : Nat) (existing : Task)
    (taskId : Nat) (u : TaskUpdates) (actorId : Nat) (now : Int) :
    Option (Task × List Notification) :=
  if !u.validForSchema then none
  else
    let updatedTask := applyUpdates existing u now
    let store1 :=
      if u.isReassignment existing then
        (createTaskNotification dbOk store fid (u.assignee_id.getD 0) actorId
          updatedTask taskId "task_reassigned").1
      else if u.status == some "completed" && existing.status != "completed" then
        if existing.createdBy != actorId then
          (createTaskNotification dbOk store fid existing.createdBy actorId
            updatedTask taskId "task_completed").1
        else store
      else if RecipientKey.inspectString updatedTask.assignee_id !=
          RecipientKey.objectIdHex actorId then
        (createTaskNotificationFromDoc dbOk store fid updatedTask.assignee_id
          actorId updatedTask taskId "task_updated").1
      else store
    some (updatedTask, store1)

/-- `PATCH /api/tasks/:id/status`: rejects an invalid status, applies the
status together with the completion-timestamp rule, and notifies the creator
on a transition into `completed` by someone else. -/
def patchTaskStatus (dbOk : Bool) (store : List Notification) (fid : Nat)
    (task : Task) (taskId : Nat) (status : String) (actorId : Nat) (now : Int) :
    Option (Task × List Notification) :=
  if !(statusEnum.contains status) then none
  else
    let completedAt2 :=
      if status == "completed" && task.status != "completed" then some now
      else if status != "completed" then none
      else task.completedAt
    let updatedTask := { task with status := status, completedAt := completedAt2 }
    let store1 :=
      if status == "completed" && task.status != "completed" then
        if task.createdBy != actorId then
          (createTaskNotification dbOk store fid task.createdBy actorId
            updatedTask taskId "task_completed").1
        else store
      else store
    some (updatedTask, store1)

/-- Insertion into the JS `Set` of recipient strings: insertion-ordered,
deduplicated. -/
def insertUnique (l : List RecipientKey) (x : RecipientKey) : List RecipientKey :=
  if x ∈ l then l else l ++ [x]

/-- The `task.comments.forEach` step of the comment fan-out.  The route has
`populate`d `comments.author` before this point, so `comment.author.toString()`
is the document's inspect output: it never equals the acting user's hex, the
guard always holds, and every author — the acting user included — enters the
Set as an inspect string. -/
def addCommentAuthors (userId : Nat) (s : List RecipientKey) (cs : List Comment) :
    List RecipientKey :=
  cs.foldl (fun acc c =>
    if RecipientKey.inspectString c.author != RecipientKey.objectIdHex userId then
      insertUnique acc (RecipientKey.inspectString c.author)
    else acc) s

/-- The `notificationRecipients` set of `POST /api/tasks/:id/comments`:
assignee and creator (raw ObjectIds on the task loaded without populating
them, inserted as hex strings when distinct from the commenting user), then
every comment author (inserted as a populated-document inspect string).
`task` is the task after the new comment was pushed. -/
def commentNotificationRecipients (task : Task) (userId : Nat) : List RecipientKey :=
  let s0 : List RecipientKey := []
  let s1 := if task.assignee_id != userId then
    insertUnique s0 (RecipientKey.objectIdHex task.assignee_id) else s0
  let s2 := if task.createdBy != userId then
    insertUnique s1 (RecipientKey.objectIdHex task.createdBy) else s1
  addCommentAuthors userId s2 task.comments

/-- `createCommentNotification` as called by the comment route with a Set
entry as recipient: a hex entry casts to its id and behaves exactly like an
ObjectId recipient; a document-inspect entry passes the self-check (it never
equals the sender's hex) but its ObjectId cast fails at save, the `CastError`
is caught, and `null` is returned with nothing created. -/
def createCommentNotificationFromKey (dbOk : Bool) (store : List Notification)
    (fid : Nat) (recipientKey : RecipientKey) (senderId : Nat) (task : Task)
    (taskId : Nat) (commentText : String) : List Notification × Option Notification :=
  match recipientKey.castToObjectId with
  | some rid => createCommentNotification dbOk store fid rid senderId task taskId commentText
  | none => (store, none)

/-- The `for (const recipientId of notificationRecipients)` loop: one
`createCommentNotification` call per Set entry, threading the store; `fid`
numbers the fresh `_id`s. -/
def sendCommentNotifications (dbOk : Bool) (store : List Notification) (fid : Nat)
    (recips : List RecipientKey) (senderId : Nat) (task : Task) (taskId : Nat)
    (text : String) : List Notification :=
  match recips with
  | [] => store
  | r :: rest =>
      sendCommentNotifications dbOk
        (createCommentNotificationFromKey dbOk store fid r senderId task taskId text).1
        (fid + 1) rest senderId task taskId text

/-- JS `String.prototype.trim`: strip leading and trailing whitespace. -/
def jsTrim (text : String) : String :=
  ⟨((text.data.dropWhile Char.isWhitespace).reverse.dropWhile
      Char.isWhitespace).reverse⟩

/-- The `newComment` object built by `POST /api/tasks/:id/comments`. -/
def addedComment (userId : Nat) (text : String) (now : Int) : Comment :=
  { author := userId, text := jsTrim text, timestamp := now }

/-- `task.comments.push(newComment)` in the comment handler. -/
def taskWithComment (task : Task) (userId : Nat) (text : String) (now : Int) : Task :=
  { task with comments := task.comments ++ [addedComment userId text now] }

/-- `POST /api/tasks/:id/comments`: rejects blank text, pushes the trimmed
comment, saves the task (running the pre-save hook with an unmodified status),
and fans out one comment notification per recipient. -/
def postComment (dbOk : Bool) (store : List Notification) (fid : Nat) (task : Task)
    (taskId : Nat) (userId : Nat) (text : String) (now : Int) :
    Option (Task × List Notification) :=
  if (jsTrim text).length = 0 then none
  else
    let task1 := taskPreSaveHook (taskWithComment task userId text now) false now
    let recips := commentNotificationRecipients task1 userId
    some (task1, sendCommentNotifications dbOk store fid recips userId task1 taskId text)

/-- `PATCH /api/notifications/:id/read`: `findOne({ _id, recipient })` then
`markAsRead` on the first match. -/
def findOneAndMarkRead (store : List Notification) (userId nid : Nat) (now : Int) :
    List Notification :=
  match store with
  | [] => []
  | n :: rest =>
      if n.id == nid && n.recipient == userId then n.markAsRead now :: rest
      else n :: findOneAndMarkRead rest userId nid now

/-- `DELETE /api/notifications/:id`: `findOneAndDelete({ _id, recipient })`,
removing the first match. -/
def findOneAndDeleteNotification (store : List Notification) (userId nid : Nat) :
    List Notification :=
  match store with
  | [] => []
  | n :: rest =>
      if n.id == nid && n.recipient == userId then rest
      else n :: findOneAndDeleteNotification rest userId nid

/-- `DELETE /api/notifications/clear-all`: `deleteMany({ recipient, isRead:
true })`, returning the remaining store and the deleted count. -/
def clearAllReadNotifications (store : List Notification) (userId : Nat) :
    List Notification × Nat :=
  (store.filter (fun n => !(n.recipient == userId && n.isRead)),
   (store.filter (fun n => n.recipient == userId && n.isRead)).length)

/-- The spec invariant on tasks: `completedAt` is non-null iff the status is
`completed`. -/
def completedInv (t : Task) : Bool :=
  t.completedAt.isSome == (t.status == "completed")

/-- The spec invariant on notifications: `readAt` is non-null iff `isRead`. -/
def readInv (n : Notification) : Bool :=
  n.readAt.isSome == n.isRead

/-- A sample task shared by concrete witnesses. -/
def demoTask : Task :=
  { title := "Launch", description := "Prepare the launch", assignee_id := 1,
    project_id := none, status := "todo", priority := "medium", dueDate := 1000,
    createdBy := 2, completedAt := none, comments := [] }

/-- C2: for every pair with `recipient == sender`, both notification creators
return `null` and leave the store unchanged. -/
theorem c2_self_notification_suppressed (dbOk : Bool) (store : List Notification)
    (fid r s : Nat) (task : Task) (taskId : Nat) (ty text : String) (h : r = s) :
    createTaskNotification dbOk store fid r s task taskId ty = (store, none) ∧
    createCommentNotification dbOk store fid r s task taskId text = (store, none) := by
  subst h
  simp [createTaskNotification, createCommentNotification]

/-- Witness for C2 at a concrete self-pair. -/
theorem c2_self_notification_suppressed_witness :
    createTaskNotification true [] 0 5 5 demoTask 1 "task_assigned" = ([], none) ∧
    createCommentNotification true [] 0 5 5 demoTask 1 "hello" = ([], none) :=
  c2_self_notification_suppressed true [] 0 5 5 demoTask 1 "task_assigned" "hello" rfl

/-- The C1 failing input: an existing task already completed, satisfying the
invariant. -/
def demoCompletedTask : Task :=
  { title := "Ship report", description := "Write and ship the report",
    assignee_id := 1, project_id := none, status := "completed",
    priority := "medium", dueDate := 1000, createdBy := 2,
    completedAt := some 500, comments := [] }

/-- The C1 failing request body: a PUT whose body does not mention `status`. -/
def titleOnlyUpdate : TaskUpdates :=
  { title := some "Ship final report", description := none, assignee_id := none,
    project_id := none, status := none, priority := none, dueDate := none }

/-- C1: the completion invariant FAILS on the PUT endpoint.  On a completed
task, a PUT whose body omits `status` takes the `updates.status !==
"completed"` branch (absent counts as not-completed) and clears `completedAt`
while the status stays `completed`, so an update that does not change status
breaks the invariant. -/
theorem c1_put_without_status_clears_completedAt :
    completedInv demoCompletedTask = true ∧
    (putTask true [] 7 demoCompletedTask 10 titleOnlyUpdate 3 99).map
        (fun r => (r.1.status, r.1.completedAt, completedInv r.1)) =
      some ("completed", none, false) := by
  decide

/-- Helper: a string outside a list differs from each of its members. -/
theorem beq_eq_false_of_not_mem {ty s : String} {l : List String}
    (hty : ty ∉ l) (hs : s ∈ l) : (ty == s) = false := by
  cases h : ty == s with
  | false => rfl
  | true =>
    have he : ty = s := eq_of_beq h
    subst he
    exact absurd hs hty

/-- The four eventTypes carrying a dedicated template in the
`createTaskNotification` switch. -/
def taskEventTypes : List String :=
  ["task_assigned", "task_updated", "task_completed", "task_reassigned"]

/-- Helper: `createTaskNotification` on a distinct pair and a valid type
appends exactly the templated document and returns it. -/
theorem createTaskNotification_success (store : List Notification) (fid r s : Nat)
    (task : Task) (taskId : Nat) (ty : String) (h : r ≠ s)
    (hty : notificationTypeEnum.contains ty = true) :
    createTaskNotification true store fid r s task taskId ty =
      (store ++ [taskNotificationData fid r s task taskId ty],
       some (taskNotificationData fid r s task taskId ty)) := by
  have hb : (r == s) = false := by simp [h]
  have hmem : ty ∈ notificationTypeEnum := by simpa using hty
  simp [createTaskNotification, saveNotification, Notification.valid,
    taskNotificationData, hb, hmem]

/-- Helper: `createCommentNotification` on a distinct pair appends exactly the
comment document and returns it. -/
theorem createCommentNotification_success (store : List Notification) (fid r s : Nat)
    (task : Task) (taskId : Nat) (text : String) (h : r ≠ s) :
    createCommentNotification true store fid r s task taskId text =
      (store ++ [commentNotificationData fid r s task taskId text],
       some (commentNotificationData fid r s task taskId text)) := by
  have hb : (r == s) = false := by simp [h]
  simp [createCommentNotification, saveNotification, Notification.valid,
    commentNotificationData, hb, notificationTypeEnum]

/-- C4 counterexample: for the unrecognized event type `"task_approved"` (with
recipient 1 ≠ sender 2) the generic template is selected, but zero Notification
records are created — the schema `type` enum rejects the document at save, the
error is caught, and `null` is returned.  The claim that exactly one record is
still created is false. -/
theorem c4_unknown_type_creates_no_record :
    taskNotificationContent "task_approved" demoTask.title =
      ("Task Notification", "Task \"Launch\" has been updated") ∧
    createTaskNotification true [] 0 1 2 demoTask 10 "task_approved" = ([], none) := by
  decide

/-- C4 amended: for every eventType outside the four recognized task-event
types, `createTaskNotification` (with recipient ≠ sender) does not raise and
falls back to the generic "Task Notification" title template; whether a
record is created is then decided by the schema `type` enum — an eventType
still inside the enum (`comment_added`, `project_assigned`) creates exactly
one record carrying the generic title, while an eventType outside the enum
fails schema validation at save, creates zero records, and returns `null`. -/
theorem c4_unknown_type_generic_template_record_iff_enum
    (dbOk : Bool) (store : List Notification) (fid r s : Nat) (task : Task)
    (taskId : Nat) (ty : String) (hty4 : ty ∉ taskEventTypes) (hrs : r ≠ s) :
    taskNotificationContent ty task.title =
      ("Task Notification", "Task \"" ++ task.title ++ "\" has been updated") ∧
    (notificationTypeEnum.contains ty = true →
      createTaskNotification true store fid r s task taskId ty =
        (store ++ [taskNotificationData fid r s task taskId ty],
         some (taskNotificationData fid r s task taskId ty))) ∧
    (notificationTypeEnum.contains ty = false →
      createTaskNotification dbOk store fid r s task taskId ty = (store, none)) := by
  have h1 := beq_eq_false_of_not_mem hty4
    (show "task_assigned" ∈ taskEventTypes by decide)
  have h2 := beq_eq_false_of_not_mem hty4
    (show "task_updated" ∈ taskEventTypes by decide)
  have h3 := beq_eq_false_of_not_mem hty4
    (show "task_completed" ∈ taskEventTypes by decide)
  have h4 := beq_eq_false_of_not_mem hty4
    (show "task_reassigned" ∈ taskEventTypes by decide)
  refine ⟨?_, ?_, ?_⟩
  · simp [taskNotificationContent, h1, h2, h3, h4]
  · intro hty
    exact createTaskNotification_success store fid r s task taskId ty hrs hty
  · intro hty
    have hb : (r == s) = false := by simp [hrs]
    have hmem : ty ∉ notificationTypeEnum := by simpa using hty
    simp [createTaskNotification, saveNotification, Notification.valid,
      taskNotificationData, hb, hmem]

/-- Witness for the C4 amended theorem at the concrete types
`"project_assigned"` (inside the schema enum: one generic-titled record) and
`"task_approved"` (outside it: nothing created). -/
theorem c4_unknown_type_generic_template_record_iff_enum_witness :
    createTaskNotification true [] 0 1 2 demoTask 10 "project_assigned" =
      ([taskNotificationData 0 1 2 demoTask 10 "project_assigned"],
       some (taskNotificationData 0 1 2 demoTask 10 "project_assigned")) ∧
    createTaskNotification true [] 0 1 2 demoTask 10 "task_approved" = ([], none) := by
  constructor
  · have h := (c4_unknown_type_generic_template_record_iff_enum true [] 0 1 2 demoTask
      10 "project_assigned" (by decide) (by decide)).2.1 (by decide)
    simpa using h
  · exact (c4_unknown_type_generic_template_record_iff_enum true [] 0 1 2 demoTask
      10 "task_approved" (by decide) (by decide)).2.2 (by decide)

/-- C8: marking an unread notification read sets `isRead` and `readAt = now`,
and a second `markAsRead` is a no-op, keeping the first `readAt`. -/
theorem c8_markAsRead_idempotent (n : Notification) (t1 t2 : Int)
    (h : n.isRead = false) :
    (n.markAsRead t1).isRead = true ∧ (n.markAsRead t1).readAt = some t1 ∧
    (n.markAsRead t1).markAsRead t2 = n.markAsRead t1 := by
  simp [Notification.markAsRead, h]

/-- A sample unread notification shared by concrete witnesses. -/
def demoUnread : Notification :=
  { id := 3, recipient := 1, sender := 2, type := "task_assigned",
    title := "New Task Assigned",
    message := "You have been assigned a new task: \"Launch\"",
    relatedTask := some 10, relatedProject := none, isRead := false, readAt := none }

/-- Witness for C8 at a concrete unread notification. -/
theorem c8_markAsRead_idempotent_witness :
    (demoUnread.markAsRead 7).isRead = true ∧
    (demoUnread.markAsRead 7).readAt = some 7 ∧
    (demoUnread.markAsRead 7).markAsRead 9 = demoUnread.markAsRead 7 :=
  c8_markAsRead_idempotent demoUnread 7 9 rfl

/-- C6: side-effect persistence failures are swallowed.  With the database
down (`dbOk = false`) each of `createTaskNotification`,
`createCommentNotification` and `ActivityLog.logActivity` leaves its store
unchanged and returns `null`; on success each returns the created record; and
the primary mutation result of the PUT and comment handlers is identical
whether or not the side-effect writes succeed. -/
theorem c6_side_effect_failures_swallowed
    (dbOk : Bool) (store : List Notification) (astore : List ActivityLog)
    (fid r s : Nat) (task existing : Task) (taskId : Nat) (ty text : String)
    (data : ActivityLog) (u : TaskUpdates) (actorId userId : Nat) (now : Int)
    (hvalid : data.valid = true) (hrs : r ≠ s)
    (hty : notificationTypeEnum.contains ty = true) :
    createTaskNotification false store fid r s task taskId ty = (store, none) ∧
    createCommentNotification false store fid r s task taskId text = (store, none) ∧
    logActivity false astore data = (astore, none) ∧
    logActivity true astore data = (astore ++ [data], some data) ∧
    createTaskNotification true store fid r s task taskId ty =
      (store ++ [taskNotificationData fid r s task taskId ty],
       some (taskNotificationData fid r s task taskId ty)) ∧
    createCommentNotification true store fid r s task taskId text =
      (store ++ [commentNotificationData fid r s task taskId text],
       some (commentNotificationData fid r s task taskId text)) ∧
    (putTask dbOk store fid existing taskId u actorId now).map Prod.fst =
      (putTask true store fid existing taskId u actorId now).map Prod.fst ∧
    (postComment dbOk store fid task taskId userId text now).map Prod.fst =
      (postComment true store fid task taskId userId text now).map Prod.fst := by
  refine ⟨?_, ?_, ?_, ?_, ?_, ?_, ?_, ?_⟩
  · cases hb : (r == s) <;> simp [createTaskNotification, saveNotification, hb]
  · cases hb : (r == s) <;> simp [createCommentNotification, saveNotification, hb]
  · simp [logActivity]
  · simp [logActivity, hvalid]
  · exact createTaskNotification_success store fid r s task taskId ty hrs hty
  · exact createCommentNotification_success store fid r s task taskId text hrs
  · by_cases hv : u.validForSchema <;> simp [putTask, hv]
  · by_cases he : (jsTrim text).length = 0 <;> simp [postComment, he]

/-- A valid activity-log entry used by concrete witnesses. -/
def demoLogOld : ActivityLog :=
  { userId := 1, action := "task_created", description := "created a task",
    entityType := some "task", entityId := some 10, entityName := some "Launch",
    relatedEntityType := none, relatedEntityId := none, relatedEntityName := none,
    ipAddress := none, userAgent := none, createdAt := 0 }

/-- A younger activity-log entry used by concrete witnesses. -/
def demoLogNew : ActivityLog :=
  { demoLogOld with action := "task_completed", createdAt := 2 * 86400000 }

/-- Witness for C6 at concrete inputs. -/
theorem c6_side_effect_failures_swallowed_witness :
    createTaskNotification false [] 0 1 2 demoTask 10 "task_assigned" = ([], none) ∧
    logActivity false [] demoLogOld = ([], none) ∧
    logActivity true [] demoLogOld = ([demoLogOld], some demoLogOld) ∧
    (putTask false [] 0 demoTask 10 titleOnlyUpdate 3 99).map Prod.fst =
      (putTask true [] 0 demoTask 10 titleOnlyUpdate 3 99).map Prod.fst := by
  obtain ⟨h1, _, h3, h4, _, _, h7, _⟩ :=
    c6_side_effect_failures_swallowed false [] [] 0 1 2 demoTask demoTask 10
      "task_assigned" "hello" demoLogOld titleOnlyUpdate 3 4 99 (by decide)
      (by decide) (by decide)
  exact ⟨h1, h3, h4, h7⟩

/-- Helper: the two halves of a filter partition a list's length. -/
theorem length_filter_add_length_filter_not {α : Type} (p : α → Bool) (l : List α) :
    (l.filter p).length + (l.filter (fun a => !(p a))).length = l.length := by
  induction l with
  | nil => simp
  | cons a l ih =>
    by_cases h : p a <;> simp [h] <;> omega

/-- C9: the activity-log cleanup deletes exactly the entries strictly older
than `now - daysToKeep` days — the surviving store is a sublist of the
original, an original entry survives iff its creation time is at least the
cutoff — and the reported count is the number of entries removed. -/
theorem c9_cleanup_deletes_exactly_older (store : List ActivityLog)
    (daysToKeep : Nat) (now : Int) :
    (cleanupActivityLogs store daysToKeep now).1.Sublist store ∧
    (∀ e ∈ store, (e ∈ (cleanupActivityLogs store daysToKeep now).1 ↔
      now - (daysToKeep : Int) * msPerDay ≤ e.createdAt)) ∧
    (cleanupActivityLogs store daysToKeep now).2 +
      (cleanupActivityLogs store daysToKeep now).1.length = store.length := by
  refine ⟨List.filter_sublist _, ?_, ?_⟩
  · intro e he
    simp [cleanupActivityLogs, List.mem_filter, he, not_lt]
  · simpa [cleanupActivityLogs] using
      length_filter_add_length_filter_not
        (fun e => decide (e.createdAt < now - (daysToKeep : Int) * msPerDay)) store

/-- Witness for C9 on a concrete two-entry store and a one-day retention. -/
theorem c9_cleanup_deletes_exactly_older_witness :
    (cleanupActivityLogs [demoLogOld, demoLogNew] 1 (2 * 86400000)).2 +
      (cleanupActivityLogs [demoLogOld, demoLogNew] 1 (2 * 86400000)).1.length =
      [demoLogOld, demoLogNew].length ∧
    demoLogNew ∈ (cleanupActivityLogs [demoLogOld, demoLogNew] 1 (2 * 86400000)).1 ∧
    demoLogOld ∉ (cleanupActivityLogs [demoLogOld, demoLogNew] 1 (2 * 86400000)).1 := by
  obtain ⟨-, hmem, hlen⟩ :=
    c9_cleanup_deletes_exactly_older [demoLogOld, demoLogNew] 1 (2 * 86400000)
  refine ⟨hlen, (hmem demoLogNew (by simp)).mpr (by decide), fun hc => ?_⟩
  exact absurd ((hmem demoLogOld (by simp)).mp hc) (by decide)

/-- The C5 counterexample request body: a PUT that both reassigns the task and
moves its status to `completed`. -/
def reassignAndCompleteUpdate : TaskUpdates :=
  { title := none, description := none, assignee_id := some 4, project_id := none,
    status := some "completed", priority := none, dueDate := none }

/-- A PUT body that only sets the status to `completed`. -/
def statusOnlyCompletedUpdate : TaskUpdates :=
  { title := none, description := none, assignee_id := none, project_id := none,
    status := some "completed", priority := none, dueDate := none }

/-- C5 counterexample: a PUT by actor 3 on a task created by 2 (≠ 3) that both
reassigns (1 → 4) and transitions the status into `completed` creates zero
`task_completed` notifications — the reassignment branch of the else-if chain
wins and a single `task_reassigned` notification to the new assignee is
created instead, refuting the claim that every completing update notifies the
creator. -/
theorem c5_reassign_and_complete_skips_creator_notification :
    demoTask.createdBy ≠ 3 ∧
    (putTask true [] 0 demoTask 10 reassignAndCompleteUpdate 3 99).map
        (fun r => (r.2.countP (fun n => n.type == "task_completed"),
                   r.2.map (fun n => (n.type, n.recipient)))) =
      some (0, [("task_reassigned", 4)]) := by
  decide

/-- C5 amended: for a status transition into `completed` performed by actor R
on a task with creator C, the claim holds for the PATCH status endpoint
unconditionally, and for the PUT endpoint provided the update is not
simultaneously a reassignment: if C ≠ R exactly one `task_completed`
notification addressed to C is appended, and if C = R the notification store
is left unchanged. -/
theorem c5_completion_notifies_creator (store : List Notification) (fid : Nat)
    (task : Task) (taskId actorId : Nat) (now : Int) (u : TaskUpdates)
    (htrans : task.status ≠ "completed")
    (hu : u.status = some "completed")
    (hvalid : u.validForSchema = true)
    (hnore : u.isReassignment task = false) :
    (task.createdBy ≠ actorId →
      (patchTaskStatus true store fid task taskId "completed" actorId now).map
          Prod.snd =
        some (store ++ [taskNotificationData fid task.createdBy actorId
          { task with status := "completed", completedAt := some now }
          taskId "task_completed"]) ∧
      (putTask true store fid task taskId u actorId now).map Prod.snd =
        some (store ++ [taskNotificationData fid task.createdBy actorId
          (applyUpdates task u now) taskId "task_completed"])) ∧
    (task.createdBy = actorId →
      (patchTaskStatus true store fid task taskId "completed" actorId now).map
          Prod.snd = some store ∧
      (putTask true store fid task taskId u actorId now).map Prod.snd =
        some store) := by
  have hst : (task.status != "completed") = true := by simp [htrans]
  constructor
  · intro hne
    have hne2 : (task.createdBy != actorId) = true := by simp [hne]
    constructor
    · have hsucc := createTaskNotification_success store fid task.createdBy actorId
        ({ task with status := "completed", completedAt := some now }) taskId
        "task_completed" hne (by decide)
      simp [patchTaskStatus, statusEnum, hst, hne2, hsucc]
    · have hsucc := createTaskNotification_success store fid task.createdBy actorId
        (applyUpdates task u now) taskId "task_completed" hne (by decide)
      simp [putTask, hvalid, hnore, hu, hst, hne2, hsucc]
  · intro heq
    have hne2 : (task.createdBy != actorId) = false := by simp [heq]
    constructor
    · simp [patchTaskStatus, statusEnum, hst, hne2]
    · simp [putTask, hvalid, hnore, hu, hst, hne2]

/-- Witness for the C5 amended theorem: completing `demoTask` (creator 2) by
actor 3 through the PATCH endpoint appends exactly the creator's
`task_completed` notification. -/
theorem c5_completion_notifies_creator_witness :
    (patchTaskStatus true [] 0 demoTask 10 "completed" 3 99).map Prod.snd =
      some ([] ++ [taskNotificationData 0 demoTask.createdBy 3
        { demoTask with status := "completed", completedAt := some 99 }
        10 "task_completed"]) :=
  (((c5_completion_notifies_creator [] 0 demoTask 10 3 99 statusOnlyCompletedUpdate
    (by decide) rfl (by decide) (by decide)).1) (by decide)).1

/-- Helper: `createTaskNotification` only ever reports the templated document
as created. -/
theorem createTaskNotification_snd (dbOk : Bool) (st : List Notification)
    (fid r s : Nat) (task : Task) (taskId : Nat) (ty : String) :
    (createTaskNotification dbOk st fid r s task taskId ty).2 = none ∨
    (createTaskNotification dbOk st fid r s task taskId ty).2 =
      some (taskNotificationData fid r s task taskId ty) := by
  unfold createTaskNotification
  split
  · exact Or.inl rfl
  · rcases h : saveNotification dbOk st (taskNotificationData fid r s task taskId ty)
      with _ | st2 <;> simp [h]

/-- Helper: `createCommentNotification` only ever reports the comment document
as created. -/
theorem createCommentNotification_snd (dbOk : Bool) (st : List Notification)
    (fid r s : Nat) (task : Task) (taskId : Nat) (text : String) :
    (createCommentNotification dbOk st fid r s task taskId text).2 = none ∨
    (createCommentNotification dbOk st fid r s task taskId text).2 =
      some (commentNotificationData fid r s task taskId text) := by
  unfold createCommentNotification
  split
  · exact Or.inl rfl
  · rcases h : saveNotification dbOk st (commentNotificationData fid r s task taskId text)
      with _ | st2 <;> simp [h]

/-- C7: `readAt` is non-null iff `isRead`: every notification reported created
by the two creators is unread with `readAt` unset (so the invariant holds
after creation), and the invariant is preserved by `markAsRead` and by
`markMultipleAsRead`. -/
theorem c7_readAt_iff_isRead :
    (∀ (dbOk : Bool) (st : List Notification) (fid r s taskId : Nat) (task : Task)
        (ty : String) (n : Notification),
      (createTaskNotification dbOk st fid r s task taskId ty).2 = some n →
        n.isRead = false ∧ n.readAt = none ∧ readInv n = true) ∧
    (∀ (dbOk : Bool) (st : List Notification) (fid r s taskId : Nat) (task : Task)
        (text : String) (n : Notification),
      (createCommentNotification dbOk st fid r s task taskId text).2 = some n →
        n.isRead = false ∧ n.readAt = none ∧ readInv n = true) ∧
    (∀ (n : Notification) (now : Int), readInv n = true →
      readInv (n.markAsRead now) = true) ∧
    (∀ (store : List Notification) (rid : Nat) (ids : List Nat) (now : Int)
        (m : Notification), (∀ x ∈ store, readInv x = true) →
      m ∈ (markMultipleAsRead store rid ids now).1 → readInv m = true) := by
  refine ⟨?_, ?_, ?_, ?_⟩
  · intro dbOk st fid r s taskId task ty n h
    rcases createTaskNotification_snd dbOk st fid r s task taskId ty with h2 | h2 <;>
      rw [h2] at h
    · exact absurd h (by simp)
    · obtain rfl : taskNotificationData fid r s task taskId ty = n :=
        Option.some_injective _ h
      simp [taskNotificationData, readInv]
  · intro dbOk st fid r s taskId task text n h
    rcases createCommentNotification_snd dbOk st fid r s task taskId text with h2 | h2 <;>
      rw [h2] at h
    · exact absurd h (by simp)
    · obtain rfl : commentNotificationData fid r s task taskId text = n :=
        Option.some_injective _ h
      simp [commentNotificationData, readInv]
  · intro n now h
    cases hr : n.isRead with
    | false => simp [Notification.markAsRead, hr, readInv]
    | true => simpa [Notification.markAsRead, hr] using h
  · intro store rid ids now m hall hm
    simp only [markMultipleAsRead, List.mem_map] at hm
    obtain ⟨x, hx, rfl⟩ := hm
    by_cases hq : markMultipleQuery rid ids x = true
    · simp [hq, readInv]
    · simpa [hq] using hall x hx

/-- Witness for C7 at concrete notifications. -/
theorem c7_readAt_iff_isRead_witness :
    readInv (taskNotificationData 0 1 2 demoTask 10 "task_assigned") = true ∧
    readInv (demoUnread.markAsRead 7) = true ∧
    readInv { demoUnread with isRead := true, readAt := some 7 } = true := by
  obtain ⟨h1, -, h3, h4⟩ := c7_readAt_iff_isRead
  refine ⟨(h1 true [] 0 1 2 10 demoTask "task_assigned" _ (by decide)).2.2,
          h3 demoUnread 7 (by decide),
          h4 [demoUnread] 1 [] 7 _ (by decide) (by decide)⟩

/-- The notifications in `store` whose recipient is not `u`. -/
def othersFilter (u : Nat) (store : List Notification) : List Notification :=
  store.filter (fun n => !(n.recipient == u))

/-- Helper: `markAsRead` never changes the recipient. -/
theorem markAsRead_recipient (n : Notification) (now : Int) :
    (n.markAsRead now).recipient = n.recipient := by
  unfold Notification.markAsRead
  split <;> rfl

/-- C10: every notification operation invoked by user `u` — mark one read,
mark many read, delete one, clear all read — leaves the sublist of
notifications addressed to other users exactly unchanged, because each query
is scoped by `recipient == u`. -/
theorem c10_notification_ops_scoped_to_recipient (store : List Notification)
    (u nid : Nat) (ids : List Nat) (now : Int) :
    othersFilter u (findOneAndMarkRead store u nid now) = othersFilter u store ∧
    othersFilter u (markMultipleAsRead store u ids now).1 = othersFilter u store ∧
    othersFilter u (findOneAndDeleteNotification store u nid) = othersFilter u store ∧
    othersFilter u (clearAllReadNotifications store u).1 = othersFilter u store := by
  refine ⟨?_, ?_, ?_, ?_⟩
  · induction store with
    | nil => rfl
    | cons n rest ih =>
      by_cases h : (n.id == nid && n.recipient == u) = true
      · have hid : n.id = nid := by simpa using (Bool.and_eq_true _ _ |>.mp h).1
        have hru : n.recipient = u := by simpa using (Bool.and_eq_true _ _ |>.mp h).2
        simp [findOneAndMarkRead, othersFilter, hid, hru, List.filter_cons,
          markAsRead_recipient]
      · have h2 : (n.id == nid && n.recipient == u) = false := by simpa using h
        simp only [othersFilter] at ih
        simp [findOneAndMarkRead, h2, othersFilter, List.filter_cons, ih]
  · induction store with
    | nil => rfl
    | cons n rest ih =>
      simp only [markMultipleAsRead, List.map_cons, othersFilter,
        List.filter_cons] at ih ⊢
      by_cases hq : markMultipleQuery u ids n = true
      · obtain ⟨⟨hru, -⟩, -⟩ :
            (n.recipient = u ∧ n.isRead = false) ∧ (ids = [] ∨ n.id ∈ ids) := by
          simpa [markMultipleQuery] using hq
        simp [hq, hru, ih]
      · simp [hq, ih]
  · induction store with
    | nil => rfl
    | cons n rest ih =>
      by_cases h : (n.id == nid && n.recipient == u) = true
      · have hid : n.id = nid := by simpa using (Bool.and_eq_true _ _ |>.mp h).1
        have hru : n.recipient = u := by simpa using (Bool.and_eq_true _ _ |>.mp h).2
        simp [findOneAndDeleteNotification, othersFilter, hid, hru, List.filter_cons]
      · have h2 : (n.id == nid && n.recipient == u) = false := by simpa using h
        simp only [othersFilter] at ih
        simp [findOneAndDeleteNotification, h2, othersFilter, List.filter_cons, ih]
  · simp only [clearAllReadNotifications, othersFilter, List.filter_filter]
    apply List.filter_congr
    intro a ha
    cases hra : (a.recipient == u) <;> simp [hra]

/-- The spec's concrete comment scenario: assignee 1, creator 2, prior
comment authors 1, 2 and 3, commenting user 0. -/
def demoCommentedTask : Task :=
  { title := "Launch", description := "Prepare the launch", assignee_id := 1,
    project_id := none, status := "in-progress", priority := "medium",
    dueDate := 1000, createdBy := 2, completedAt := none,
    comments := [{ author := 1, text := "on it", timestamp := 1 },
                 { author := 2, text := "thanks", timestamp := 2 },
                 { author := 3, text := "watching", timestamp := 3 }] }

/-- C3: the comment fan-out FAILS to notify prior commenters.  In the spec
scenario (assignee 1, creator 2, prior comment authors 1, 2 and 3, commenting
user 0) the claim expects exactly 3 `comment_added` notifications, one each
to 1, 2 and 3; the code creates exactly 2, to the assignee and the creator
only.  `comments.author` was `populate`d before the fan-out, so every author
enters the Set as a document-inspect string whose ObjectId cast fails at
save; the error is caught and swallowed, and prior commenter 3 is never
notified. -/
theorem c3_prior_commenters_never_notified :
    (postComment true [] 0 demoCommentedTask 10 0 "looks good" 99).map
        (fun r => (r.2.countP (fun n => n.type == "comment_added"),
                   r.2.map (fun n => n.recipient))) =
      some (2, [1, 2]) := by
  decide

end TeamTracker
